import Mathlib

/-!
Verification of the TMC helper-process orchestration layer of the tmc-vscode
extension (`src/api/tmc.ts`, embedded here from `src/src/actions/types.ts`).

The development shallowly embeds the data model and the operations of the
`TMC` class: the response validator `_checkLangsResponse`, the command
executor `_executeLangsCommand` with its response cache, the process runner
`_spawnLangsProcess` (as a small event-step machine over its mutable flags),
and the facade operations `isAuthenticated` and `downloadExercise` (with the
workspace collaborator modelled as a set of exercise entries).
-/

/-- Untyped JSON values, the type of the `data` payload of a langs response. -/
inductive Json where
  | jNull : Json
  | jBool : Bool → Json
  | jNum : Int → Json
  | jStr : String → Json
  | jArr : List Json → Json
  | jObj : List (String × Json) → Json

/-- JavaScript truthiness of a JSON value (`null`, `false`, `0`, `""` are falsy;
arrays and objects are always truthy). -/
def Json.jsTruthy : Json → Bool
  | .jNull => false
  | .jBool b => b
  | .jNum n => n != 0
  | .jStr s => s != ""
  | .jArr _ => true
  | .jObj _ => true

/-- Models `is<string[]>(data)`: extract the string list when `data` is an array of
strings, as used by `_checkLangsResponse` for crash diagnostics. -/
def Json.asStringList : Json → Option (List String)
  | .jArr xs => xs.mapM fun j => match j with
      | .jStr s => some s
      | _ => none
  | _ => none

/-- The `result` tag of an `UncheckedLangsResponse` (closed enumeration from
the tmc-langs CLI protocol). -/
inductive LangsResult where
  | loggedIn | loggedOut | notLoggedIn | error | sentData | retrievedData
  | executedCommand | downloading | compressing | extracting | processing
  | sending | waitingForResults | finished
deriving Repr, DecidableEq

/-- The `status` tag of an `UncheckedLangsResponse`. -/
inductive LangsStatus where
  | finished | crashed | inProgress
deriving Repr, DecidableEq

/-- One raw line of output from the tmc-langs helper process
(`UncheckedLangsResponse` in the source). `message` is `string | null`. -/
structure UncheckedLangsResponse where
  data : Json
  message : Option String
  percentDone : Int
  result : LangsResult
  status : LangsStatus

/-- A validated response (`LangsResponse<T>` in the source): same fields, to be
produced only by `TMC.checkLangsResponse` after narrowing away
`status = crashed` and `result = error` and checking the data shape. -/
structure LangsResponse where
  data : Json
  message : Option String
  percentDone : Int
  result : LangsResult
  status : LangsStatus

/-- The error taxonomy of `src/errors.ts` as used by the facade:
`RuntimeError` optionally carries extra details, the generic JS `Error` is
`plainError`. -/
inductive TmcError where
  | apiError : String → TmcError
  | authenticationError : String → TmcError
  | authorizationError : String → TmcError
  | connectionError : String → TmcError
  | runtimeError : String → Option String → TmcError
  | timeoutError : String → TmcError
  | plainError : String → TmcError
deriving Repr, DecidableEq

/-- Models `langsResponse.message || "null"`: JavaScript `||` replaces both `null`
and the empty string (falsy) by the literal `"null"`. -/
def effectiveMessage : Option String → String
  | none => "null"
  | some s => if s = "" then "null" else s

/-- Embedding of `TMC._checkLangsResponse`: classify the final response of a
completed invocation, in the source's order: crashed, then `result = error`,
then a shape-checker mismatch, and otherwise rewrap as validated. -/
def TMC.checkLangsResponse (langsResponse : UncheckedLangsResponse)
    (checker : Json → Bool) : Except TmcError LangsResponse :=
  let data := langsResponse.data
  let message := effectiveMessage langsResponse.message
  if langsResponse.status = .crashed then
    match data.asStringList with
    | some strs =>
        .error (.runtimeError ("Langs process crashed: " ++ message)
          (some (String.intercalate "\n" strs)))
    | none => .error (.plainError ("Langs process crashed: " ++ message))
  else if langsResponse.result = .error then
    .error (.plainError message)
  else if !checker data then
    .error (.plainError "Unexpected response data type.")
  else
    .ok { data := data, message := langsResponse.message,
          percentDone := langsResponse.percentDone,
          result := langsResponse.result, status := langsResponse.status }

/-- The collected logs of one helper process run (`RustProcessLogs` in the
source): accumulated stderr and the ordered list of parsed stdout records. -/
structure RustProcessLogs where
  stderr : String
  stdout : List UncheckedLangsResponse

/-- The `_rustCache` map from invocation signature to the most recent
validated response, as an association list (newest binding first). -/
def RustCache := List (String × LangsResponse)

/-- Models `Map.get`: the newest binding for a key, if any. -/
def RustCache.get (c : RustCache) (k : String) : Option LangsResponse :=
  match c with
  | [] => none
  | (k', v) :: rest => if k' = k then some v else RustCache.get rest k

/-- Models `Map.set`: bind a key to a value, shadowing any previous binding. -/
def RustCache.set (c : RustCache) (k : String) (v : LangsResponse) : RustCache :=
  (k, v) :: c

/-- The cache key of `_executeLangsCommand`: `langsArgs.args.join("-")`. -/
def TMC.cacheKeyOf (args : List String) : String :=
  String.intercalate "-" args

/-- The observable outcome of one `_executeLangsCommand` call: the returned
result, the cache afterwards, and how many helper processes were spawned. -/
structure ExecOutcome where
  ret : Except TmcError LangsResponse
  cache : RustCache
  spawns : Nat

/-- Embedding of `TMC._executeLangsCommand`. The external process behavior
for this call is supplied as `proc`: the resolved value of
`_spawnLangsProcess(langsArgs).result`. On a cache hit whose stored data
passes the checker the cached response is returned without spawning;
otherwise the process runs, the *last* stdout record is validated, and a
successful validation is memoized under the signature. -/
def TMC.executeLangsCommand (args : List String) (checker : Json → Bool)
    (useCache : Bool) (cache : RustCache)
    (proc : Except TmcError RustProcessLogs) : ExecOutcome :=
  let cacheKey := TMC.cacheKeyOf args
  let fresh : ExecOutcome :=
    match proc with
    | .error e => { ret := .error e, cache := cache, spawns := 1 }
    | .ok logs =>
      match logs.stdout.getLast? with
      | none =>
          { ret := .error (.plainError "No langs response received"),
            cache := cache, spawns := 1 }
      | some last =>
        match TMC.checkLangsResponse last checker with
        | .error e => { ret := .error e, cache := cache, spawns := 1 }
        | .ok checked =>
            { ret := .ok checked,
              cache := RustCache.set cache cacheKey checked, spawns := 1 }
  match (if useCache then RustCache.get cache cacheKey else none) with
  | some cached =>
      if checker cached.data then
        { ret := .ok cached, cache := cache, spawns := 0 }
      else fresh
  | none => fresh

/-- The fresh-invocation tail of `_executeLangsCommand` (definitionally the
`fresh` branch above), named so lemmas can speak about it. -/
def TMC.freshOutcome (args : List String) (checker : Json → Bool)
    (cache : RustCache) (proc : Except TmcError RustProcessLogs) : ExecOutcome :=
  match proc with
  | .error e => { ret := .error e, cache := cache, spawns := 1 }
  | .ok logs =>
    match logs.stdout.getLast? with
    | none =>
        { ret := .error (.plainError "No langs response received"),
          cache := cache, spawns := 1 }
    | some last =>
      match TMC.checkLangsResponse last checker with
      | .error e => { ret := .error e, cache := cache, spawns := 1 }
      | .ok checked =>
          { ret := .ok checked,
            cache := RustCache.set cache (TMC.cacheKeyOf args) checked, spawns := 1 }

/-- One `_executeLangsCommand` call of a trace, with the process behavior the
environment would supply for it. -/
structure LangsCall where
  args : List String
  checker : Json → Bool
  useCache : Bool
  proc : Except TmcError RustProcessLogs

/-- Run a sequence of `_executeLangsCommand` calls, threading the cache. -/
def TMC.runCalls (cache : RustCache) : List LangsCall → RustCache
  | [] => cache
  | c :: rest =>
      TMC.runCalls (TMC.executeLangsCommand c.args c.checker c.useCache cache c.proc).cache rest

/-- Timeout message of `_spawnLangsProcess` (the string passed to `reject`,
rewrapped as `RuntimeError`). -/
def spawnTimeoutMessage : String :=
  "Process didn\x27t seem to finish or was taking a really long time."

/-- Interruption message of `_spawnLangsProcess`. -/
def spawnKilledMessage : String := "TMC Langs process was killed."

/-- Settlement state of the internal `processResult` promise of
`_spawnLangsProcess`. -/
inductive Settlement where
  | pending
  | resolved : Option Int → Settlement
  | rejectedErr : String → Settlement
  | rejectedTimeout : Settlement
deriving Repr, DecidableEq

/-- The mutable state of one `_spawnLangsProcess` runner: the `active` and
`interrupted` flags, the number of `kill` calls issued so far, whether the
timeout was cleared or has fired, and the promise settlement. -/
structure SpawnState where
  active : Bool
  interrupted : Bool
  kills : Nat
  timeoutCleared : Bool
  timeoutFired : Bool
  settled : Settlement
deriving Repr, DecidableEq

/-- State at spawn time: active, not interrupted, no kills, timer armed. -/
def SpawnState.init : SpawnState :=
  { active := true, interrupted := false, kills := 0,
    timeoutCleared := false, timeoutFired := false, settled := .pending }

/-- Events that can act on a `_spawnLangsProcess` runner. -/
inductive SpawnEvent where
  | interruptCall
  | timeoutFire
  | naturalExit : Option Int → SpawnEvent
  | procError : String → SpawnEvent
  | dataChunk
deriving Repr, DecidableEq

/-- One event step of the runner, following the source's handlers:
`interrupt()` kills only while `active` and then clears `active`; the timeout
callback kills unconditionally and rejects; `exit`/`error` clear the timeout
and settle the promise; data chunks only accumulate logs. -/
def SpawnState.step (s : SpawnState) : SpawnEvent → SpawnState
  | .interruptCall =>
      if s.active then
        { s with active := false, interrupted := true, kills := s.kills + 1 }
      else s
  | .timeoutFire =>
      if s.timeoutCleared || s.timeoutFired then s
      else
        { s with
          kills := s.kills + 1,
          timeoutFired := true,
          settled := (match s.settled with
            | .pending => .rejectedTimeout
            | other => other) }
  | .naturalExit code =>
      { s with
        timeoutCleared := true,
        settled := (match s.settled with
          | .pending => .resolved code
          | other => other) }
  | .procError msg =>
      { s with
        timeoutCleared := true,
        settled := (match s.settled with
          | .pending => .rejectedErr msg
          | other => other) }
  | .dataChunk => s

/-- Fold a list of events over the runner state. -/
def SpawnState.run (s : SpawnState) : List SpawnEvent → SpawnState
  | [] => s
  | e :: es => SpawnState.run (s.step e) es

/-- The value of `_spawnLangsProcess(...).result` once the promise settles:
a rejection (process error or timeout) is returned as a `RuntimeError`; only
then is the `interrupted` flag consulted, superseding a natural exit; and
otherwise the collected logs are returned. -/
def SpawnState.result (s : SpawnState) (logs : RustProcessLogs) :
    Except TmcError RustProcessLogs :=
  match s.settled with
  | .rejectedErr msg => .error (.runtimeError msg none)
  | .rejectedTimeout => .error (.runtimeError spawnTimeoutMessage none)
  | _ =>
      if s.interrupted then .error (.runtimeError spawnKilledMessage none)
      else .ok logs

/-- The two token stores of the authentication migration: the helper's
internal store and the extension's local one (`this._token`, mirrored into
`this._storage` by the source on every assignment). -/
structure AuthState where
  helperToken : Option Json
  localToken : Option Json

/-- Modelled from the spec: the helper process is an external collaborator
(not part of this repository); per the helper process protocol, the
`logged-in` query reports `result = "logged-in"` with the stored token as
`data` when a token is present, and `result = "not-logged-in"` otherwise. -/
def loggedInQueryResponse (helperToken : Option Json) : UncheckedLangsResponse :=
  match helperToken with
  | some t =>
      { data := t, message := none, percentDone := 100,
        result := .loggedIn, status := .finished }
  | none =>
      { data := .jNull, message := none, percentDone := 100,
        result := .notLoggedIn, status := .finished }

/-- Modelled from the spec: `login --set-access-token <t>` stores the given
token in the helper's internal store. -/
def setAccessToken (s : AuthState) (t : Json) : AuthState :=
  { s with helperToken := some t }

/-- Embedding of `TMC.isAuthenticated` on the helper-driven (insider) path,
with both helper commands succeeding: query the helper's login state; on
`not-logged-in` with a local token present, push the local token into the
helper; on `logged-in` with truthy token data, pull it into local storage;
finally return whether a local token is now present
(`this._token !== undefined`; the source's early `Ok(false)` return for the
tokenless `not-logged-in` case coincides with that final return). -/
def TMC.isAuthenticated (s : AuthState) : Bool × AuthState :=
  let response := loggedInQueryResponse s.helperToken
  let s' :=
    if response.result = .notLoggedIn then
      match s.localToken with
      | none => s
      | some t => setAccessToken s t
    else if response.result = .loggedIn ∧ response.data.jsTruthy = true then
      { s with localToken := some response.data }
    else s
  (s'.localToken.isSome, s')

/-- Modelled from the spec: the workspace manager (an out-of-scope
collaborator consumed via path lookups) tracks one entry per downloaded
exercise; creating the download path registers the entry and
`deleteExercise` removes it. -/
structure Workspace where
  exercises : List Nat

/-- Register the exercise entry created by `createExerciseDownloadPath`. -/
def Workspace.add (ws : Workspace) (id : Nat) : Workspace :=
  { exercises := id :: ws.exercises }

/-- Models `workspaceManager.deleteExercise(id)`: remove the entry. -/
def Workspace.deleteExercise (ws : Workspace) (id : Nat) : Workspace :=
  { exercises := ws.exercises.filter (fun e => e != id) }

/-- Outcomes of the collaborator steps of one `downloadExercise` call, as the
environment would supply them. -/
structure DownloadScenario where
  isInsider : Bool
  detailsResult : Except TmcError Unit
  courseResult : Except TmcError Unit
  exerciseFound : Bool
  createPathResult : Except TmcError String
  helperDownloadResult : Except TmcError Unit
  httpDownloadResult : Except TmcError Unit
  extractResult : Except TmcError Unit

/-- Embedding of `TMC.downloadExercise`: fetch exercise details and course
details, look the exercise up in the course; then on the insider path create
the download path (registering the entry) and run the
`download-or-update-exercises` helper command — on its failure the entry is
deleted and the call still ends in `Ok.EMPTY`; on the legacy path download
the archive over HTTP, create the download path, and extract — on a failed
extraction the entry is likewise deleted and `Ok.EMPTY` returned. -/
def TMC.downloadExercise (sc : DownloadScenario) (ws : Workspace) (id : Nat) :
    Except TmcError Unit × Workspace :=
  match sc.detailsResult with
  | .error e => (.error e, ws)
  | .ok _ =>
  match sc.courseResult with
  | .error e => (.error e, ws)
  | .ok _ =>
  if !sc.exerciseFound then
    (.error (.plainError "Exercise somehow missing from course"), ws)
  else if sc.isInsider then
    match sc.createPathResult with
    | .error e => (.error e, ws)
    | .ok _ =>
      let ws1 := ws.add id
      match sc.helperDownloadResult with
      | .error _ => (.ok (), ws1.deleteExercise id)
      | .ok _ => (.ok (), ws1)
  else
    match sc.httpDownloadResult with
    | .error e => (.error e, ws)
    | .ok _ =>
    match sc.createPathResult with
    | .error e => (.error e, ws)
    | .ok _ =>
      let ws1 := ws.add id
      match sc.extractResult with
      | .error _ => (.ok (), ws1.deleteExercise id)
      | .ok _ => (.ok (), ws1)

/-- A shape-checker accepting any data value (`createIs<unknown>()`). -/
def acceptAll : Json → Bool := fun _ => true

/-- A shape-checker accepting only arrays. -/
def acceptArr : Json → Bool
  | .jArr _ => true
  | _ => false

/-- A shape-checker modelling `createIs<ClientOauth2.Data | null>()`:
accepts `null` and objects. -/
def oauthDataChecker : Json → Bool
  | .jNull => true
  | .jObj _ => true
  | _ => false

/-- A successful terminal record carrying the given data. -/
def okRecord (d : Json) : UncheckedLangsResponse :=
  { data := d, message := none, percentDone := 100,
    result := .finished, status := .finished }

/-- The in-progress record of the `logged-in` scenario. -/
def inProgressRecord : UncheckedLangsResponse :=
  { data := .jNull, message := none, percentDone := 50,
    result := .processing, status := .inProgress }

/-- The terminal record of the `logged-in` scenario, with data
`\x7b"access_token":"abc"\x7d`. -/
def loggedInRecord : UncheckedLangsResponse :=
  { data := .jObj [("access_token", .jStr "abc")], message := none,
    percentDone := 100, result := .loggedIn, status := .finished }

/-- The scenario refuting claim C3: the insider path of `downloadExercise`
where every metadata step succeeds but the helper download command fails. -/
def c3Scenario : DownloadScenario :=
  { isInsider := true, detailsResult := .ok (), courseResult := .ok (),
    exerciseFound := true, createPathResult := .ok "/data/1",
    helperDownloadResult := .error (.runtimeError "spawn failed" none),
    httpDownloadResult := .ok (), extractResult := .ok () }

/-- C1: ordered outcome classification of `_checkLangsResponse`, amended:
`status = "crashed"` always yields an error joining string-array data as
diagnostic detail; otherwise `result = "error"` yields an error whose text is
the record's message, with the literal `"null"` substituted when the message
is absent *or empty*; otherwise checker-rejected data yields the error
"Unexpected response data type."; otherwise the record is rewrapped with
status and result narrowed away from the error variants. -/
theorem C1_validator_classification (r : UncheckedLangsResponse)
    (checker : Json → Bool) :
    (r.status = .crashed → ∀ strs, r.data.asStringList = some strs →
      TMC.checkLangsResponse r checker =
        .error (.runtimeError ("Langs process crashed: " ++ effectiveMessage r.message)
          (some (String.intercalate "\n" strs))))
    ∧ (r.status = .crashed → r.data.asStringList = none →
      TMC.checkLangsResponse r checker =
        .error (.plainError ("Langs process crashed: " ++ effectiveMessage r.message)))
    ∧ (r.status ≠ .crashed → r.result = .error → ∀ s, r.message = some s → s ≠ "" →
      TMC.checkLangsResponse r checker = .error (.plainError s))
    ∧ (r.status ≠ .crashed → r.result = .error → (r.message = none ∨ r.message = some "") →
      TMC.checkLangsResponse r checker = .error (.plainError "null"))
    ∧ (r.status ≠ .crashed → r.result ≠ .error → checker r.data = false →
      TMC.checkLangsResponse r checker = .error (.plainError "Unexpected response data type."))
    ∧ (r.status ≠ .crashed → r.result ≠ .error → checker r.data = true →
      TMC.checkLangsResponse r checker =
        .ok { data := r.data, message := r.message, percentDone := r.percentDone,
              result := r.result, status := r.status }) := by
  refine ⟨?_, ?_, ?_, ?_, ?_, ?_⟩
  · intro hc strs hs
    simp [TMC.checkLangsResponse, hc, hs]
  · intro hc hs
    simp [TMC.checkLangsResponse, hc, hs]
  · intro hc he s hm hs
    simp [TMC.checkLangsResponse, hc, he, effectiveMessage, hm, hs]
  · intro hc he hm
    rcases hm with hm | hm <;> simp [TMC.checkLangsResponse, hc, he, effectiveMessage, hm]
  · intro hc he hck
    simp [TMC.checkLangsResponse, hc, he, hck]
  · intro hc he hck
    simp [TMC.checkLangsResponse, hc, he, hck]

/-- C1 witness: a finished record with `result = "error"` and message
`"bad course id"` is classified as that error. -/
theorem C1_validator_classification_witness :
    TMC.checkLangsResponse
      { data := .jNull, message := some "bad course id", percentDone := 100,
        result := .error, status := .finished } acceptAll
      = .error (.plainError "bad course id") :=
  (C1_validator_classification
      { data := .jNull, message := some "bad course id", percentDone := 100,
        result := .error, status := .finished } acceptAll).2.2.1
    (by decide) rfl "bad course id" rfl (by decide)

/-- C1 counterexample: for a non-crashed record with `result = "error"` and a
*present but empty* message, the claim as stated requires the error text to be
the record's message (the empty string), but the validator substitutes the
literal `"null"` (JavaScript `||` treats the empty string as falsy). -/
theorem C1_counterexample :
    (({ data := .jNull, message := some "", percentDone := 0, result := .error,
        status := .finished } : UncheckedLangsResponse).message ≠ none)
    ∧ TMC.checkLangsResponse
        { data := .jNull, message := some "", percentDone := 0, result := .error,
          status := .finished } acceptAll
      = .error (.plainError "null")
    ∧ "null" ≠ "" := by
  refine ⟨by simp, rfl, by decide⟩

/-- C2: with the cache not consulted, the outcome of `_executeLangsCommand`
on a completed process is determined by the last stdout record alone: two
runs whose record lists share the same last element yield the same result;
and the concrete `["logged-in"]` invocation emitting an in-progress record
followed by a finished/logged-in record with data
`\x7b"access_token":"abc"\x7d` returns `Ok` carrying exactly that data. -/
theorem C2_last_record_authoritative
    (args : List String) (checker : Json → Bool) (cache : RustCache)
    (logs1 logs2 : RustProcessLogs)
    (h : logs1.stdout.getLast? = logs2.stdout.getLast?) :
    (TMC.executeLangsCommand args checker false cache (.ok logs1)).ret =
      (TMC.executeLangsCommand args checker false cache (.ok logs2)).ret
    ∧ (TMC.executeLangsCommand ["logged-in"] oauthDataChecker false []
        (.ok { stderr := "", stdout := [inProgressRecord, loggedInRecord] })).ret =
      .ok { data := .jObj [("access_token", .jStr "abc")], message := none,
            percentDone := 100, result := .loggedIn, status := .finished } := by
  constructor
  · have hrun : ∀ logs : RustProcessLogs,
        TMC.executeLangsCommand args checker false cache (.ok logs) =
          (match logs.stdout.getLast? with
           | none =>
              { ret := .error (.plainError "No langs response received"),
                cache := cache, spawns := 1 }
           | some last =>
              match TMC.checkLangsResponse last checker with
              | .error e => { ret := .error e, cache := cache, spawns := 1 }
              | .ok checked =>
                  { ret := .ok checked,
                    cache := RustCache.set cache (TMC.cacheKeyOf args) checked,
                    spawns := 1 }) := fun _ => rfl
    rw [hrun, hrun, h]
  · rfl

/-- C2 witness: two completed runs, one with a lone terminal record and one
with an extra progress record before the same terminal record, produce the
same result; and the logged-in scenario returns the token data. -/
theorem C2_last_record_authoritative_witness :
    (TMC.executeLangsCommand ["logged-in"] oauthDataChecker false []
        (.ok { stderr := "", stdout := [loggedInRecord] })).ret =
      (TMC.executeLangsCommand ["logged-in"] oauthDataChecker false []
        (.ok { stderr := "x", stdout := [inProgressRecord, loggedInRecord] })).ret
    ∧ (TMC.executeLangsCommand ["logged-in"] oauthDataChecker false []
        (.ok { stderr := "", stdout := [inProgressRecord, loggedInRecord] })).ret =
      .ok { data := .jObj [("access_token", .jStr "abc")], message := none,
            percentDone := 100, result := .loggedIn, status := .finished } :=
  C2_last_record_authoritative ["logged-in"] oauthDataChecker []
    { stderr := "", stdout := [loggedInRecord] }
    { stderr := "x", stdout := [inProgressRecord, loggedInRecord] } rfl

/-- C4: `interrupt()` is idempotent — a second call is a no-op on the runner
state (so it cannot throw or change the outcome fixed by the first call) —
and interruption takes priority over a natural exit: whenever the
`interrupted` flag was set and the process promise settled by natural exit,
the runner's result is the "process was killed" error. -/
theorem C4_interrupt_idempotent_priority :
    (∀ s : SpawnState,
      (s.step .interruptCall).step .interruptCall = s.step .interruptCall)
    ∧ (∀ (s : SpawnState) (code : Option Int) (logs : RustProcessLogs),
        s.interrupted = true → s.settled = .resolved code →
        s.result logs = .error (.runtimeError spawnKilledMessage none)) := by
  constructor
  · intro s
    cases ha : s.active <;> simp [SpawnState.step, ha]
  · intro s code logs hint hres
    simp [SpawnState.result, hres, hint]

/-- C4 witness: interrupting twice from the initial state equals interrupting
once, and an interrupted runner whose process then exited naturally still
reports the killed error. -/
theorem C4_interrupt_idempotent_priority_witness :
    ((SpawnState.init.step .interruptCall).step .interruptCall =
      SpawnState.init.step .interruptCall)
    ∧ ((SpawnState.init.step .interruptCall).step (.naturalExit (some 0))).result
        { stderr := "", stdout := [] } =
      .error (.runtimeError spawnKilledMessage none) :=
  ⟨C4_interrupt_idempotent_priority.1 SpawnState.init,
   C4_interrupt_idempotent_priority.2
     ((SpawnState.init.step .interruptCall).step (.naturalExit (some 0)))
     (some 0) { stderr := "", stdout := [] } rfl rfl⟩

/-- Helper: a run consisting only of data chunks leaves the state unchanged. -/
theorem SpawnState.run_dataChunks (es : List SpawnEvent) :
    ∀ s : SpawnState, (∀ e ∈ es, e = .dataChunk) → s.run es = s := by
  induction es with
  | nil => intro s _; rfl
  | cons e es ih =>
      intro s h
      have he : e = .dataChunk := h e (List.mem_cons_self e es)
      subst he
      exact ih s fun e' he' => h e' (List.mem_cons_of_mem _ he')

/-- Helper: events other than `interrupt()` and the timeout callback never
kill, never set `interrupted`, and never change a settled promise. -/
theorem SpawnState.run_no_kill (es : List SpawnEvent) :
    ∀ s : SpawnState, (∀ e ∈ es, e ≠ .interruptCall ∧ e ≠ .timeoutFire) →
    (s.run es).kills = s.kills ∧ (s.run es).interrupted = s.interrupted ∧
      (s.settled ≠ .pending → (s.run es).settled = s.settled) := by
  induction es with
  | nil => intro s _; exact ⟨rfl, rfl, fun _ => rfl⟩
  | cons e es ih =>
      intro s h
      have he := h e (List.mem_cons_self e es)
      have hrest : ∀ e' ∈ es, e' ≠ SpawnEvent.interruptCall ∧ e' ≠ SpawnEvent.timeoutFire :=
        fun e' he' => h e' (List.mem_cons_of_mem _ he')
      have step_eq : (s.step e).kills = s.kills ∧ (s.step e).interrupted = s.interrupted ∧
          (s.settled ≠ .pending → (s.step e).settled = s.settled) := by
        cases e with
        | interruptCall => exact absurd rfl he.1
        | timeoutFire => exact absurd rfl he.2
        | naturalExit code =>
            refine ⟨rfl, rfl, fun hp => ?_⟩
            cases hs : s.settled <;> simp [SpawnState.step, hs] <;> exact absurd hs hp
        | procError msg =>
            refine ⟨rfl, rfl, fun hp => ?_⟩
            cases hs : s.settled <;> simp [SpawnState.step, hs] <;> exact absurd hs hp
        | dataChunk => exact ⟨rfl, rfl, fun _ => rfl⟩
      obtain ⟨h1, h2, h3⟩ := ih (s.step e) hrest
      refine ⟨h1.trans step_eq.1, h2.trans step_eq.2.1, fun hp => ?_⟩
      have hse := step_eq.2.2 hp
      exact (h3 (by rw [hse]; exact hp)).trans hse

/-- C5 counterexample: an invocation that exceeds the timeout after a manual
`interrupt()` kills the process twice — the timeout callback kills
unconditionally (it neither checks nor clears the `active` flag), so the
claim's "the process kill happens exactly once" fails for this invocation. -/
theorem C5_counterexample :
    (SpawnState.run SpawnState.init [.interruptCall, .timeoutFire]).timeoutFired = true
    ∧ (SpawnState.run SpawnState.init [.interruptCall, .timeoutFire]).kills = 2 := by
  constructor <;> rfl

/-- C5, amended: for every invocation that exceeds the timeout with no manual
`interrupt()` call, the kill happens exactly once, the invocation fails with
the timeout `RuntimeError` regardless of the output already collected, and
that error differs from the manual-interruption error. -/
theorem C5_timeout_kill_once (pre post : List SpawnEvent) (logs : RustProcessLogs)
    (hpre : ∀ e ∈ pre, e = SpawnEvent.dataChunk)
    (hpost : ∀ e ∈ post, e ≠ SpawnEvent.interruptCall ∧ e ≠ SpawnEvent.timeoutFire) :
    (SpawnState.run ((SpawnState.run SpawnState.init pre).step .timeoutFire) post).kills = 1
    ∧ (SpawnState.run ((SpawnState.run SpawnState.init pre).step .timeoutFire) post).result
        logs = .error (.runtimeError spawnTimeoutMessage none)
    ∧ TmcError.runtimeError spawnTimeoutMessage none ≠
        TmcError.runtimeError spawnKilledMessage none := by
  have hinit : SpawnState.run SpawnState.init pre = SpawnState.init :=
    SpawnState.run_dataChunks pre SpawnState.init hpre
  rw [hinit]
  have hstep : SpawnState.init.step .timeoutFire =
      { active := true, interrupted := false, kills := 1, timeoutCleared := false,
        timeoutFired := true, settled := .rejectedTimeout } := rfl
  rw [hstep]
  obtain ⟨h1, h2, h3⟩ := SpawnState.run_no_kill post
    { active := true, interrupted := false, kills := 1, timeoutCleared := false,
      timeoutFired := true, settled := .rejectedTimeout } hpost
  refine ⟨h1, ?_, by decide⟩
  have hs := h3 (by decide)
  have hi := h2
  simp [SpawnState.result, hs, hi]

/-- C5 witness: a run that streams one chunk, hits the timeout, and then sees
the (killed) process exit, kills once and reports the timeout error. -/
theorem C5_timeout_kill_once_witness :
    (SpawnState.run ((SpawnState.run SpawnState.init [.dataChunk]).step .timeoutFire)
        [.naturalExit (some 137)]).kills = 1
    ∧ (SpawnState.run ((SpawnState.run SpawnState.init [.dataChunk]).step .timeoutFire)
        [.naturalExit (some 137)]).result { stderr := "", stdout := [] } =
      .error (.runtimeError spawnTimeoutMessage none)
    ∧ TmcError.runtimeError spawnTimeoutMessage none ≠
        TmcError.runtimeError spawnKilledMessage none :=
  C5_timeout_kill_once [.dataChunk] [.naturalExit (some 137)]
    { stderr := "", stdout := [] } (by decide) (by decide)

/-- C6: whenever the per-exercise destination path was created and the
subsequent step fails — the helper download-and-extract command on the
insider path, or the extract step on the legacy HTTP path — the
partially-created exercise entry is deleted before `downloadExercise`
returns, so no entry for the exercise is left behind. -/
theorem C6_failed_download_deletes_entry (sc : DownloadScenario) (ws : Workspace)
    (id : Nat) (p : String) (e : TmcError)
    (hd : sc.detailsResult = .ok ()) (hc : sc.courseResult = .ok ())
    (hf : sc.exerciseFound = true) (hp : sc.createPathResult = .ok p)
    (hfail : (sc.isInsider = true ∧ sc.helperDownloadResult = .error e)
      ∨ (sc.isInsider = false ∧ sc.httpDownloadResult = .ok ()
          ∧ sc.extractResult = .error e)) :
    id ∉ (TMC.downloadExercise sc ws id).2.exercises := by
  rcases hfail with ⟨hi, hdl⟩ | ⟨hi, hh, hx⟩
  · simp [TMC.downloadExercise, hd, hc, hf, hp, hi, hdl,
      Workspace.deleteExercise, Workspace.add, List.mem_filter]
  · simp [TMC.downloadExercise, hd, hc, hf, hp, hi, hh, hx,
      Workspace.deleteExercise, Workspace.add, List.mem_filter]

/-- C6 witness: a failing insider download of exercise 42 leaves no entry. -/
theorem C6_failed_download_deletes_entry_witness :
    42 ∉ (TMC.downloadExercise
      { isInsider := true, detailsResult := .ok (), courseResult := .ok (),
        exerciseFound := true, createPathResult := .ok "/data/42",
        helperDownloadResult := .error (.runtimeError "network down" none),
        httpDownloadResult := .ok (), extractResult := .ok () }
      { exercises := [7] } 42).2.exercises :=
  C6_failed_download_deletes_entry _ _ 42 "/data/42"
    (.runtimeError "network down" none) rfl rfl rfl rfl (.inl ⟨rfl, rfl⟩)

/-- C3 counterexample: in `downloadExercise`, when the helper download step
fails after the metadata steps succeeded, the operation does not return an
`Err` — it logs, deletes the partial exercise, and returns `Ok.EMPTY`,
contradicting the claim that every lower-layer failure surfaces as `Err`. -/
theorem C3_counterexample :
    c3Scenario.helperDownloadResult = .error (.runtimeError "spawn failed" none)
    ∧ (TMC.downloadExercise c3Scenario { exercises := [] } 1).1 = .ok () := by
  constructor <;> rfl

/-- C3, amended: every embedded Command Facade operation returns a result
value, and lower-layer failures are propagated as `Err` unchanged — a spawn
failure and a validation failure through `_executeLangsCommand`, and the
metadata, path-creation and HTTP download failures of `downloadExercise` —
with one exception: when the post-creation helper download step of
`downloadExercise` fails, the operation deletes the partial exercise entry
and returns `Ok`. -/
theorem C3_error_propagation :
    (∀ (args : List String) (checker : Json → Bool) (cache : RustCache) (e : TmcError),
      (TMC.executeLangsCommand args checker false cache (.error e)).ret = .error e)
    ∧ (∀ (args : List String) (checker : Json → Bool) (cache : RustCache)
        (logs : RustProcessLogs) (last : UncheckedLangsResponse) (e : TmcError),
        logs.stdout.getLast? = some last →
        TMC.checkLangsResponse last checker = .error e →
        (TMC.executeLangsCommand args checker false cache (.ok logs)).ret = .error e)
    ∧ (∀ (sc : DownloadScenario) (ws : Workspace) (id : Nat) (e : TmcError),
        sc.detailsResult = .error e → (TMC.downloadExercise sc ws id).1 = .error e)
    ∧ (∀ (sc : DownloadScenario) (ws : Workspace) (id : Nat) (e : TmcError),
        sc.detailsResult = .ok () → sc.courseResult = .ok () →
        sc.exerciseFound = true → sc.isInsider = true →
        sc.createPathResult = .error e →
        (TMC.downloadExercise sc ws id).1 = .error e)
    ∧ (∀ (sc : DownloadScenario) (ws : Workspace) (id : Nat) (e : TmcError),
        sc.detailsResult = .ok () → sc.courseResult = .ok () →
        sc.exerciseFound = true → sc.isInsider = false →
        sc.httpDownloadResult = .error e →
        (TMC.downloadExercise sc ws id).1 = .error e)
    ∧ (∀ (sc : DownloadScenario) (ws : Workspace) (id : Nat) (p : String) (e : TmcError),
        sc.detailsResult = .ok () → sc.courseResult = .ok () →
        sc.exerciseFound = true → sc.isInsider = true →
        sc.createPathResult = .ok p → sc.helperDownloadResult = .error e →
        (TMC.downloadExercise sc ws id).1 = .ok ()
          ∧ id ∉ (TMC.downloadExercise sc ws id).2.exercises) := by
  refine ⟨fun _ _ _ _ => rfl, ?_, ?_, ?_, ?_, ?_⟩
  · intro args checker cache logs last e hlast hcheck
    have hrun : TMC.executeLangsCommand args checker false cache (.ok logs) =
        (match logs.stdout.getLast? with
         | none =>
            { ret := .error (.plainError "No langs response received"),
              cache := cache, spawns := 1 }
         | some l =>
            match TMC.checkLangsResponse l checker with
            | .error e' => { ret := .error e', cache := cache, spawns := 1 }
            | .ok checked =>
                { ret := .ok checked,
                  cache := RustCache.set cache (TMC.cacheKeyOf args) checked,
                  spawns := 1 }) := rfl
    rw [hrun, hlast]
    simp [hcheck]
  · intro sc ws id e hd
    simp [TMC.downloadExercise, hd]
  · intro sc ws id e hd hc hf hi hp
    simp [TMC.downloadExercise, hd, hc, hf, hi, hp]
  · intro sc ws id e hd hc hf hi hh
    simp [TMC.downloadExercise, hd, hc, hf, hi, hh]
  · intro sc ws id p e hd hc hf hi hp hdl
    refine ⟨?_, ?_⟩
    · simp [TMC.downloadExercise, hd, hc, hf, hi, hp, hdl]
    · simp [TMC.downloadExercise, hd, hc, hf, hi, hp, hdl,
        Workspace.deleteExercise, Workspace.add, List.mem_filter]

/-- C3 witness: a spawn failure propagates through `_executeLangsCommand`
unchanged, and the failing helper download of the counterexample scenario
returns `Ok` with the entry removed. -/
theorem C3_error_propagation_witness :
    (TMC.executeLangsCommand ["get-organizations"] acceptAll false []
      (.error (.runtimeError "spawn ENOENT" none))).ret =
      .error (.runtimeError "spawn ENOENT" none)
    ∧ ((TMC.downloadExercise c3Scenario { exercises := [] } 1).1 = .ok ()
        ∧ 1 ∉ (TMC.downloadExercise c3Scenario { exercises := [] } 1).2.exercises) :=
  ⟨C3_error_propagation.1 ["get-organizations"] acceptAll []
      (.runtimeError "spawn ENOENT" none),
   C3_error_propagation.2.2.2.2.2 c3Scenario { exercises := [] } 1 "/data/1"
      (.runtimeError "spawn failed" none) rfl rfl rfl rfl rfl rfl⟩

/-- Helper: unfolding of `_executeLangsCommand` in terms of `freshOutcome`. -/
theorem TMC.executeLangsCommand_eq (args : List String) (checker : Json → Bool)
    (useCache : Bool) (cache : RustCache) (proc : Except TmcError RustProcessLogs) :
    TMC.executeLangsCommand args checker useCache cache proc =
      (match (if useCache then RustCache.get cache (TMC.cacheKeyOf args) else none) with
       | some cached =>
          if checker cached.data then { ret := .ok cached, cache := cache, spawns := 0 }
          else TMC.freshOutcome args checker cache proc
       | none => TMC.freshOutcome args checker cache proc) := rfl

/-- Helper: a fresh invocation always spawns exactly one process. -/
theorem TMC.freshOutcome_spawns (args : List String) (checker : Json → Bool)
    (cache : RustCache) (proc : Except TmcError RustProcessLogs) :
    (TMC.freshOutcome args checker cache proc).spawns = 1 := by
  rcases proc with e | logs
  · rfl
  · rcases hl : logs.stdout.getLast? with _ | last
    · simp [TMC.freshOutcome, hl]
    · rcases hc : TMC.checkLangsResponse last checker with e | checked
      · simp [TMC.freshOutcome, hl, hc]
      · simp [TMC.freshOutcome, hl, hc]

/-- Helper: a cache-miss (or no-cache) call is a fresh invocation. -/
theorem TMC.executeLangsCommand_noCache (args : List String) (checker : Json → Bool)
    (cache : RustCache) (proc : Except TmcError RustProcessLogs) :
    TMC.executeLangsCommand args checker false cache proc =
      TMC.freshOutcome args checker cache proc := rfl

/-- Helper: a cache hit whose data passes the checker is returned as-is
without spawning and without touching the cache. -/
theorem TMC.executeLangsCommand_hit (args : List String) (checker : Json → Bool)
    (cache : RustCache) (proc : Except TmcError RustProcessLogs) (w : LangsResponse)
    (hget : RustCache.get cache (TMC.cacheKeyOf args) = some w)
    (hacc : checker w.data = true) :
    TMC.executeLangsCommand args checker true cache proc =
      { ret := .ok w, cache := cache, spawns := 0 } := by
  rw [TMC.executeLangsCommand_eq]
  simp [hget, hacc]

/-- Helper: a successful validation implies the checker accepted the data,
and the validated record keeps the raw record's fields. -/
theorem TMC.checkLangsResponse_ok_checker (r : UncheckedLangsResponse)
    (checker : Json → Bool) (v : LangsResponse)
    (h : TMC.checkLangsResponse r checker = .ok v) : checker v.data = true := by
  unfold TMC.checkLangsResponse at h
  dsimp only [] at h
  by_cases h1 : r.status = .crashed
  · rw [if_pos h1] at h
    rcases hs : r.data.asStringList with _ | strs <;> simp [hs] at h
  · rw [if_neg h1] at h
    by_cases h2 : r.result = .error
    · rw [if_pos h2] at h
      simp at h
    · rw [if_neg h2] at h
      cases hch : checker r.data
      · simp [hch] at h
      · simp [hch] at h
        subst h
        exact hch

/-- Helper: a fresh invocation only returns `Ok` data the checker accepts. -/
theorem TMC.freshOutcome_ok_checker (args : List String) (checker : Json → Bool)
    (cache : RustCache) (proc : Except TmcError RustProcessLogs) (v : LangsResponse)
    (h : (TMC.freshOutcome args checker cache proc).ret = .ok v) :
    checker v.data = true := by
  rcases proc with e | logs
  · simp [TMC.freshOutcome] at h
  · rcases hl : logs.stdout.getLast? with _ | last
    · simp [TMC.freshOutcome, hl] at h
    · rcases hc : TMC.checkLangsResponse last checker with e | checked
      · simp [TMC.freshOutcome, hl, hc] at h
      · simp [TMC.freshOutcome, hl, hc] at h
        subst h
        exact TMC.checkLangsResponse_ok_checker last checker _ hc

/-- C7: a `useCache=true` call whose cached entry fails the currently
supplied shape-checker behaves exactly like a fresh (`useCache=false`) call:
it spawns exactly one helper process, and any `Ok` data it returns passed the
checker, so it is never the stale cached data. -/
theorem C7_stale_cache_refetch (args : List String) (checker : Json → Bool)
    (cache : RustCache) (cached : LangsResponse)
    (proc : Except TmcError RustProcessLogs)
    (hhit : RustCache.get cache (TMC.cacheKeyOf args) = some cached)
    (hrej : checker cached.data = false) :
    TMC.executeLangsCommand args checker true cache proc =
      TMC.executeLangsCommand args checker false cache proc
    ∧ (TMC.executeLangsCommand args checker true cache proc).spawns = 1
    ∧ (∀ v, (TMC.executeLangsCommand args checker true cache proc).ret = .ok v →
        v.data ≠ cached.data) := by
  have htrue : TMC.executeLangsCommand args checker true cache proc =
      TMC.freshOutcome args checker cache proc := by
    rw [TMC.executeLangsCommand_eq]
    simp [hhit, hrej]
  refine ⟨htrue.trans (TMC.executeLangsCommand_noCache args checker cache proc).symm,
    htrue ▸ TMC.freshOutcome_spawns args checker cache proc, ?_⟩
  intro v hv heq
  have hacc : checker v.data = true :=
    TMC.freshOutcome_ok_checker args checker cache proc v (htrue ▸ hv)
  rw [heq, hrej] at hacc
  exact Bool.false_ne_true hacc

/-- C7 witness: a cache holding an object under key `"get-courses"` queried
with an array-only checker re-fetches: one spawn, fresh array data. -/
theorem C7_stale_cache_refetch_witness :
    (TMC.executeLangsCommand ["get-courses"] acceptArr true
      [("get-courses", { data := .jObj [], message := none, percentDone := 100,
                         result := .finished, status := .finished })]
      (.ok { stderr := "", stdout := [okRecord (.jArr [])] })).spawns = 1 :=
  (C7_stale_cache_refetch ["get-courses"] acceptArr
    [("get-courses", { data := .jObj [], message := none, percentDone := 100,
                       result := .finished, status := .finished })]
    { data := .jObj [], message := none, percentDone := 100,
      result := .finished, status := .finished }
    (.ok { stderr := "", stdout := [okRecord (.jArr [])] }) rfl rfl).2.1

/-- Helper: looking up the key just stored finds the stored value. -/
theorem RustCache.get_set_self (c : RustCache) (k : String) (v : LangsResponse) :
    (c.set k v).get k = some v := by
  simp [RustCache.get, RustCache.set]

/-- Helper: storing under one key does not affect lookups of another. -/
theorem RustCache.get_set_ne (c : RustCache) (k q : String) (v : LangsResponse)
    (h : k ≠ q) : (c.set k v).get q = c.get q := by
  simp [RustCache.get, RustCache.set, h]

/-- Helper: a successful fresh invocation stores its response under the
call's signature. -/
theorem TMC.freshOutcome_ok_get (args : List String) (checker : Json → Bool)
    (cache : RustCache) (proc : Except TmcError RustProcessLogs) (v : LangsResponse)
    (h : (TMC.freshOutcome args checker cache proc).ret = .ok v) :
    RustCache.get (TMC.freshOutcome args checker cache proc).cache
      (TMC.cacheKeyOf args) = some v := by
  rcases proc with e | logs
  · simp [TMC.freshOutcome] at h
  · rcases hl : logs.stdout.getLast? with _ | last
    · simp [TMC.freshOutcome, hl] at h
    · rcases hc : TMC.checkLangsResponse last checker with e | checked
      · simp [TMC.freshOutcome, hl, hc] at h
      · simp [TMC.freshOutcome, hl, hc] at h ⊢
        subst h
        exact RustCache.get_set_self cache (TMC.cacheKeyOf args) _

/-- Helper: a successful `_executeLangsCommand` call leaves its returned
response stored under its own signature. -/
theorem TMC.executeLangsCommand_ok_get (args : List String) (checker : Json → Bool)
    (u : Bool) (cache : RustCache) (proc : Except TmcError RustProcessLogs)
    (v : LangsResponse)
    (h : (TMC.executeLangsCommand args checker u cache proc).ret = .ok v) :
    RustCache.get (TMC.executeLangsCommand args checker u cache proc).cache
      (TMC.cacheKeyOf args) = some v := by
  rw [TMC.executeLangsCommand_eq] at h ⊢
  rcases hu : (if u then RustCache.get cache (TMC.cacheKeyOf args) else none)
      with _ | cached
  · rw [hu] at h
    exact TMC.freshOutcome_ok_get args checker cache proc v h
  · rw [hu] at h
    dsimp only [] at h ⊢
    cases hch : checker cached.data
    · rw [hch] at h
      simp only [Bool.false_eq_true, if_false] at h ⊢
      exact TMC.freshOutcome_ok_get args checker cache proc v h
    · rw [hch] at h
      simp at h ⊢
      subst h
      cases u with
      | false => simp at hu
      | true => simpa using hu

/-- Helper: a call either leaves the cache unchanged or stores one response
under its own signature. -/
theorem TMC.executeLangsCommand_cache_cases (args : List String)
    (checker : Json → Bool) (u : Bool) (cache : RustCache)
    (proc : Except TmcError RustProcessLogs) :
    (TMC.executeLangsCommand args checker u cache proc).cache = cache
    ∨ ∃ w, (TMC.executeLangsCommand args checker u cache proc).cache =
        RustCache.set cache (TMC.cacheKeyOf args) w := by
  have hfresh : (TMC.freshOutcome args checker cache proc).cache = cache
      ∨ ∃ w, (TMC.freshOutcome args checker cache proc).cache =
          RustCache.set cache (TMC.cacheKeyOf args) w := by
    rcases proc with e | logs
    · exact .inl rfl
    · rcases hl : logs.stdout.getLast? with _ | last
      · exact .inl (by simp [TMC.freshOutcome, hl])
      · rcases hc : TMC.checkLangsResponse last checker with e | checked
        · exact .inl (by simp [TMC.freshOutcome, hl, hc])
        · exact .inr ⟨checked, by simp [TMC.freshOutcome, hl, hc]⟩
  rw [TMC.executeLangsCommand_eq]
  rcases hu : (if u then RustCache.get cache (TMC.cacheKeyOf args) else none)
      with _ | cached
  · exact hfresh
  · dsimp only []
    cases hch : checker cached.data
    · simp only [Bool.false_eq_true, if_false]
      exact hfresh
    · simp only [if_true]
      exact .inl (by simp)

/-- Helper: the stored response for signature `S` survives a sequence of
calls in which every call for `S` uses the cache and supplies a checker that
accepts the stored data (other calls may touch their own signatures only). -/
theorem TMC.runCalls_preserves (S : String) (v : LangsResponse) :
    ∀ (cs : List LangsCall) (cache : RustCache),
      RustCache.get cache S = some v →
      (∀ c ∈ cs, TMC.cacheKeyOf c.args = S →
        c.useCache = true ∧ c.checker v.data = true) →
      RustCache.get (TMC.runCalls cache cs) S = some v := by
  intro cs
  induction cs with
  | nil => intro cache h _; exact h
  | cons c cs ih =>
      intro cache hget hcs
      have hrest : ∀ c' ∈ cs, TMC.cacheKeyOf c'.args = S →
          c'.useCache = true ∧ c'.checker v.data = true :=
        fun c' hc' => hcs c' (List.mem_cons_of_mem _ hc')
      have hrun : TMC.runCalls cache (c :: cs) =
          TMC.runCalls
            (TMC.executeLangsCommand c.args c.checker c.useCache cache c.proc).cache
            cs := rfl
      rw [hrun]
      by_cases hk : TMC.cacheKeyOf c.args = S
      · obtain ⟨hu, hacc⟩ := hcs c (List.mem_cons_self c cs) hk
        have hhit : TMC.executeLangsCommand c.args c.checker c.useCache cache c.proc =
            { ret := .ok v, cache := cache, spawns := 0 } := by
          rw [hu]
          exact TMC.executeLangsCommand_hit c.args c.checker cache c.proc v
            (hk ▸ hget) hacc
        rw [hhit]
        exact ih cache hget hrest
      · rcases TMC.executeLangsCommand_cache_cases c.args c.checker c.useCache cache
            c.proc with hcc | ⟨w, hcc⟩
        · rw [hcc]
          exact ih cache hget hrest
        · rw [hcc]
          exact ih _ ((RustCache.get_set_ne cache _ S w hk).trans hget) hrest

/-- C8 counterexample: the claimed proviso ("no intervening `useCache=false`
call for the same signature") is too weak. The original call for signature
`"x"` stores string data; an intervening `useCache=true` call whose checker
rejects that data re-fetches and overwrites the entry with array data; a
final `useCache=true` call then hits the cache (no spawn) yet returns data
different from the original call's data. -/
theorem C8_counterexample :
    (TMC.executeLangsCommand ["x"] acceptAll false []
      (.ok { stderr := "", stdout := [okRecord (.jStr "v1")] })).ret
      = .ok { data := .jStr "v1", message := none, percentDone := 100,
              result := .finished, status := .finished }
    ∧ (TMC.executeLangsCommand ["x"] acceptArr true
        (TMC.executeLangsCommand ["x"] acceptAll false []
          (.ok { stderr := "", stdout := [okRecord (.jStr "v1")] })).cache
        (.ok { stderr := "", stdout := [okRecord (.jArr [])] })).spawns = 1
    ∧ (TMC.executeLangsCommand ["x"] acceptArr true
        (TMC.executeLangsCommand ["x"] acceptArr true
          (TMC.executeLangsCommand ["x"] acceptAll false []
            (.ok { stderr := "", stdout := [okRecord (.jStr "v1")] })).cache
          (.ok { stderr := "", stdout := [okRecord (.jArr [])] })).cache
        (.error (.plainError "offline"))).spawns = 0
    ∧ (TMC.executeLangsCommand ["x"] acceptArr true
        (TMC.executeLangsCommand ["x"] acceptArr true
          (TMC.executeLangsCommand ["x"] acceptAll false []
            (.ok { stderr := "", stdout := [okRecord (.jStr "v1")] })).cache
          (.ok { stderr := "", stdout := [okRecord (.jArr [])] })).cache
        (.error (.plainError "offline"))).ret
      = .ok { data := .jArr [], message := none, percentDone := 100,
              result := .finished, status := .finished }
    ∧ Json.jArr [] ≠ Json.jStr "v1" :=
  ⟨rfl, rfl, rfl, rfl, fun h => Json.noConfusion h⟩

/-- C8, amended: a `useCache=true` call that hits the cache returns data
identical to the original successful call for the same signature `S`,
provided every intervening call for `S` used the cache and supplied a
shape-checker accepting the stored data (in particular, no intervening
`useCache=false` call and no cache-rejecting re-fetch for `S`). -/
theorem C8_cache_hit_returns_original (args0 argsF : List String)
    (ch0 chF : Json → Bool) (u0 : Bool) (cache0 : RustCache)
    (proc0 procF : Except TmcError RustProcessLogs) (v : LangsResponse)
    (cs : List LangsCall) (S : String)
    (hS0 : TMC.cacheKeyOf args0 = S) (hSF : TMC.cacheKeyOf argsF = S)
    (h0 : (TMC.executeLangsCommand args0 ch0 u0 cache0 proc0).ret = .ok v)
    (hcs : ∀ c ∈ cs, TMC.cacheKeyOf c.args = S →
      c.useCache = true ∧ c.checker v.data = true)
    (hchF : chF v.data = true) :
    TMC.executeLangsCommand argsF chF true
      (TMC.runCalls (TMC.executeLangsCommand args0 ch0 u0 cache0 proc0).cache cs)
      procF
    = { ret := .ok v,
        cache := TMC.runCalls
          (TMC.executeLangsCommand args0 ch0 u0 cache0 proc0).cache cs,
        spawns := 0 } := by
  have h1 : RustCache.get
      (TMC.executeLangsCommand args0 ch0 u0 cache0 proc0).cache S = some v := by
    rw [← hS0]
    exact TMC.executeLangsCommand_ok_get args0 ch0 u0 cache0 proc0 v h0
  have h2 := TMC.runCalls_preserves S v cs _ h1 hcs
  refine TMC.executeLangsCommand_hit argsF chF _ procF v ?_ hchF
  rw [hSF]
  exact h2

/-- C8 witness: a fresh call for `["paste"]`, no intervening calls, then a
cache hit returning the very same response without spawning. -/
theorem C8_cache_hit_returns_original_witness :
    TMC.executeLangsCommand ["paste"] acceptAll true
      (TMC.runCalls (TMC.executeLangsCommand ["paste"] acceptAll false []
        (.ok { stderr := "", stdout := [okRecord (.jStr "v1")] })).cache [])
      (.error (.plainError "offline"))
    = { ret := .ok { data := .jStr "v1", message := none, percentDone := 100,
                     result := .finished, status := .finished },
        cache := TMC.runCalls (TMC.executeLangsCommand ["paste"] acceptAll false []
          (.ok { stderr := "", stdout := [okRecord (.jStr "v1")] })).cache [],
        spawns := 0 } :=
  C8_cache_hit_returns_original ["paste"] ["paste"] acceptAll acceptAll false []
    (.ok { stderr := "", stdout := [okRecord (.jStr "v1")] })
    (.error (.plainError "offline"))
    { data := .jStr "v1", message := none, percentDone := 100,
      result := .finished, status := .finished }
    [] "paste" rfl rfl rfl (fun c hc => absurd hc (List.not_mem_nil c)) rfl

/-- C9: after a helper-driven `isAuthenticated()` call the two token stores
agree: a local token is pushed into a logged-out helper, a logged-in
helper's token is pulled into local storage, and the returned boolean states
whether a token is present by either account. The hypothesis records that
helper token data is a truthy JSON value (an OAuth2 token object). -/
theorem C9_isAuthenticated_migration (s : AuthState)
    (ht : ∀ t, s.helperToken = some t → t.jsTruthy = true) :
    ((TMC.isAuthenticated s).2.helperToken = (TMC.isAuthenticated s).2.localToken)
    ∧ (s.helperToken = none → ∀ t, s.localToken = some t →
        (TMC.isAuthenticated s).2.helperToken = some t)
    ∧ (∀ t, s.helperToken = some t → (TMC.isAuthenticated s).2.localToken = some t)
    ∧ ((TMC.isAuthenticated s).1 = ((TMC.isAuthenticated s).2.helperToken.isSome
        || (TMC.isAuthenticated s).2.localToken.isSome)) := by
  rcases s with ⟨hTok, lTok⟩
  rcases hTok with _ | t
  · rcases lTok with _ | l
    · exact ⟨rfl, fun _ t h => Option.noConfusion h, fun t h => Option.noConfusion h, rfl⟩
    · refine ⟨rfl, ?_, fun t h => Option.noConfusion h, rfl⟩
      intro _ t h
      simp only [Option.some.injEq] at h
      subst h
      rfl
  · have htt : t.jsTruthy = true := ht t rfl
    refine ⟨?_, fun h => Option.noConfusion h, ?_, ?_⟩
    · simp [TMC.isAuthenticated, loggedInQueryResponse, htt]
    · intro t' h
      simp only [Option.some.injEq] at h
      subst h
      simp [TMC.isAuthenticated, loggedInQueryResponse, htt]
    · simp [TMC.isAuthenticated, loggedInQueryResponse, htt]

/-- C9 witness: a logged-in helper with token `\x7b"access_token":"abc"\x7d`
and empty local storage ends with both stores holding that token and the
call returning `true`. -/
theorem C9_isAuthenticated_migration_witness :
    ((TMC.isAuthenticated
        { helperToken := some (.jObj [("access_token", .jStr "abc")]),
          localToken := none }).2.localToken
      = some (.jObj [("access_token", .jStr "abc")]))
    ∧ ((TMC.isAuthenticated
        { helperToken := some (.jObj [("access_token", .jStr "abc")]),
          localToken := none }).1
      = ((TMC.isAuthenticated
          { helperToken := some (.jObj [("access_token", .jStr "abc")]),
            localToken := none }).2.helperToken.isSome
        || (TMC.isAuthenticated
          { helperToken := some (.jObj [("access_token", .jStr "abc")]),
            localToken := none }).2.localToken.isSome)) :=
  ⟨(C9_isAuthenticated_migration
      { helperToken := some (.jObj [("access_token", .jStr "abc")]),
        localToken := none }
      (fun t h => by cases h; rfl)).2.2.1
      (.jObj [("access_token", .jStr "abc")]) rfl,
   (C9_isAuthenticated_migration
      { helperToken := some (.jObj [("access_token", .jStr "abc")]),
        localToken := none }
      (fun t h => by cases h; rfl)).2.2.2⟩

/-- C10: the cache signature is the argument list joined with `"-"`, which is
not injective — `["a", "b"]` and `["a-b"]` share the key `"a-b"` — so a
`useCache=true` call can be served the response stored by an invocation with
different arguments: here the call with args `["a-b"]` is answered from the
cache (no spawn) with the response stored by the `["a", "b"]` invocation. -/
theorem C10_cache_key_collision :
    TMC.cacheKeyOf ["a", "b"] = TMC.cacheKeyOf ["a-b"]
    ∧ (["a", "b"] : List String) ≠ ["a-b"]
    ∧ (TMC.executeLangsCommand ["a-b"] acceptAll true
        (TMC.executeLangsCommand ["a", "b"] acceptAll false []
          (.ok { stderr := "", stdout := [okRecord (.jStr "from-other-args")] })).cache
        (.error (.plainError "offline"))).spawns = 0
    ∧ (TMC.executeLangsCommand ["a-b"] acceptAll true
        (TMC.executeLangsCommand ["a", "b"] acceptAll false []
          (.ok { stderr := "", stdout := [okRecord (.jStr "from-other-args")] })).cache
        (.error (.plainError "offline"))).ret
      = .ok { data := .jStr "from-other-args", message := none, percentDone := 100,
              result := .finished, status := .finished } :=
  ⟨rfl, by decide, rfl, rfl⟩
